/-
Shallow embedding of the Table Store of mayafox/shipgirls, src/sql_ops.py
(class SQLOps), together with proofs settling the frozen claims about it.

Modelling conventions:
* Python scalar values are `PyVal`; floats are carried only as their printed
  representation, since no claim does float arithmetic.
* The sqlite3 backing engine is modelled by explicit state: a table is its
  declared columns plus its stored rows.  A table whose single primary-key
  column is declared with type integer is a rowid-alias table, and sqlite
  keeps (and scans) its rows in rowid order; the embedding maintains rows of
  such tables sorted by that column.
* A Python exception is `Except.error` / the `err` field of `AddRowResult`.
  Where the source mutates before raising, only the mutations a claim
  observes are tracked (add_row tracks them all via `AddRowResult`).
* `self.rotate()` at the top of add_row is a no-op for stores constructed
  without a rotation interval (sql_ops.py:537-538 falls through to pass);
  the modelled states are such stores.
-/
import Mathlib

/-- A Python scalar value as the store sees it (sql_ops.py passes values
through unchanged; floats appear only via their repr). -/
inductive PyVal where
  | vInt (n : Int)
  | vBool (b : Bool)
  | vFloat (r : String)
  | vStr (s : String)
  | vNone
deriving DecidableEq, Repr

/-- The Python exceptions the store can raise, tagged by kind
(sql_ops.py raises ValueError, Exception, TypeError; sqlite3 raises
OperationalError / IntegrityError / ProgrammingError, all folded into
engineError; AttributeError, KeyError, IndexError and UnboundLocalError
arise from slips in the source). -/
inductive PyErr where
  | valueError (msg : String)
  | exception (msg : String)
  | typeError (msg : String)
  | attributeError (msg : String)
  | keyError (k : String)
  | indexError
  | nameError (n : String)
  | engineError (msg : String)
deriving DecidableEq, Repr

/-- One declared column: name, declared SQL type, primary-key flag
(the last two components of a PRAGMA table_info row that the source reads). -/
structure Column where
  name : String
  sqlType : String
  pk : Bool
deriving DecidableEq, Repr

/-- One live table: its declared columns in order and its stored rows,
each row positional and aligned with the columns. -/
structure Table where
  name : String
  cols : List Column
  rows : List (List PyVal)
deriving DecidableEq, Repr

/-- The store state: the live tables, the per-table ordinal seed map
(self.__ordinals, sql_ops.py:60), and the row_factory constructor flag
(sql_ops.py:56-57; the cursor created at line 58 keeps the factory it was
created with). -/
structure SQLOpsState where
  tables : List Table
  ordinals : List (String × Int)
  rowFactory : Bool
deriving DecidableEq, Repr

/-- Decidable equality for Except results, so concrete runs can be checked
by the kernel. -/
instance {ε α : Type} [DecidableEq ε] [DecidableEq α] :
    DecidableEq (Except ε α) := fun x y =>
  match x, y with
  | .ok a, .ok b => decidable_of_iff (a = b) (by simp)
  | .error a, .error b => decidable_of_iff (a = b) (by simp)
  | .ok _, .error _ => isFalse (by simp)
  | .error _, .ok _ => isFalse (by simp)

/-- The valid SQL type vocabulary, self.__valid_types (sql_ops.py:59). -/
def validTypes : List String := ["text", "integer", "numeric", "real", "none"]

/-- Python str.split() with no argument: split on whitespace runs, dropping
empty pieces (char-level so that the kernel can evaluate it). -/
def pySplitAux : List Char → List Char → List String
  | [], acc => if acc.isEmpty then [] else [String.mk acc.reverse]
  | c :: cs, acc =>
      if c = ' ' then
        if acc.isEmpty then pySplitAux cs []
        else String.mk acc.reverse :: pySplitAux cs []
      else pySplitAux cs (c :: acc)

/-- Python str.split() on a whole string. -/
def pySplit (s : String) : List String := pySplitAux s.data []

/-- Python str.replace with the one-character arguments the source uses:
key.replace of a dot by an underscore (sql_ops.py:374). -/
def replaceDot (s : String) : String :=
  String.mk (s.data.map (fun c => if c = '.' then '_' else c))

/-- Whether the string contains a dot (the source's test at line 373). -/
def hasDot (s : String) : Bool := s.data.contains '.'

/-- Lexicographic string order (what sqlite ORDER BY name does for the
ASCII names this store uses), kernel-evaluable. -/
def lexLe : List Char → List Char → Bool
  | [], _ => true
  | _ :: _, [] => false
  | a :: as, b :: bs => if a = b then lexLe as bs else decide (a.toNat < b.toNat)

/-- Insert into a lexicographically sorted list of names. -/
def insertSorted (s : String) : List String → List String
  | [] => [s]
  | x :: xs => if lexLe s.data x.data then s :: x :: xs else x :: insertSorted s xs

/-- Sort names lexicographically (insertion sort, so proofs and the kernel
can unfold it). -/
def sortNames : List String → List String
  | [] => []
  | x :: xs => insertSorted x (sortNames xs)

/-- check_types on a list of type strings (sql_ops.py:63-83, list branch). -/
def check_types (types : List String) : Bool :=
  types.all (fun t => validTypes.contains t)

/-- check_types on a single string: Python splits it on whitespace first
(sql_ops.py:78-79). -/
def check_types_str (s : String) : Bool :=
  check_types (pySplit s)

/-- Look up a live table by name. -/
def getTable (st : SQLOpsState) (tname : String) : Option Table :=
  st.tables.find? (fun t => t.name = tname)

/-- Replace the like-named table (used after a successful engine write). -/
def setTable (st : SQLOpsState) (t : Table) : SQLOpsState :=
  { st with tables := st.tables.map (fun u => if u.name = t.name then t else u) }

/-- get_tables (sql_ops.py:85-96): table names, ORDER BY name. -/
def get_tables (st : SQLOpsState) : List String :=
  sortNames (st.tables.map Table.name)

/-- table_exists (sql_ops.py:98-112): membership in get_tables. -/
def table_exists (st : SQLOpsState) (table_name : String) : Bool :=
  (get_tables st).contains table_name

/-- drop_table (sql_ops.py:114-130).  The guard at line 127 calls
self.table_exists() with no argument, so it tests for a table literally
named "table" (the parameter default), not for table_name; the DROP that
follows is IF EXISTS, hence errorless. -/
def drop_table (st : SQLOpsState) (table_name : String) : SQLOpsState :=
  if table_exists st "table" then
    { st with tables := st.tables.filter (fun t => t.name ≠ table_name) }
  else st

/-- get_column_names (sql_ops.py:136-151): PRAGMA table_info names in
declaration order; a missing table yields no PRAGMA rows. -/
def get_column_names (st : SQLOpsState) (table_name : String) : List String :=
  match getTable st table_name with
  | some t => t.cols.map Column.name
  | none => []

/-- get_column_types (sql_ops.py:153-169). -/
def get_column_types (st : SQLOpsState) (table_name : String) : List String :=
  match getTable st table_name with
  | some t => t.cols.map Column.sqlType
  | none => []

/-- column_exists (sql_ops.py:183-200). -/
def column_exists (st : SQLOpsState) (column_name : String)
    (table_name : String) : Bool :=
  (get_column_names st table_name).contains column_name

/-- add_column (sql_ops.py:202-233).  Invalid type and duplicate column
raise; an ALTER TABLE ... ADD COLUMN ... PRIMARY KEY is rejected by sqlite,
as is an ALTER on a missing table.  A successful ALTER appends the column,
and existing rows read NULL in it. -/
def add_column (st : SQLOpsState) (name : String) (sql_type : String)
    (key : Bool) (table_name : String) : Except PyErr SQLOpsState :=
  if ¬ check_types_str sql_type then
    .error (.valueError "ERROR: type is not a valid sql data type.")
  else if column_exists st name table_name then
    .error (.exception "ERROR: Column already exists in the table.")
  else if key then
    .error (.engineError "Cannot add a PRIMARY KEY column")
  else
    match getTable st table_name with
    | none => .error (.engineError "no such table")
    | some t =>
        .ok (setTable st
          { t with cols := t.cols ++ [⟨name, sql_type, false⟩],
                   rows := t.rows.map (fun r => r ++ [PyVal.vNone]) })

/-- Python-dict read: dicts are insertion-ordered association lists with
unique keys. -/
def assocGet {α : Type} (m : List (String × α)) (k : String) : Option α :=
  (m.find? (fun p => p.1 = k)).map Prod.snd

/-- Python-dict write: update the entry in place, or append a fresh key at
the end (Python insertion order). -/
def assocSet {α : Type} (m : List (String × α)) (k : String) (v : α) :
    List (String × α) :=
  if (m.find? (fun p => p.1 = k)).isSome then
    m.map (fun p => if p.1 = k then (k, v) else p)
  else m ++ [(k, v)]

/-- Seed-map lookup (reading self.__ordinals[table_name]). -/
def lookupSeed (m : List (String × Int)) (k : String) : Option Int :=
  assocGet m k

/-- Seed-map write (self.__ordinals[table_name] = v). -/
def setSeed (m : List (String × Int)) (k : String) (v : Int) :
    List (String × Int) :=
  assocSet m k v

/-- The additive-migration loop of create_table (sql_ops.py:267-271): for
each (col, type) pair in zip order, when the column is missing from the live
schema, add_column is called with key = (col == key_name). -/
def addMissing (st : SQLOpsState) (table_name : String)
    (pairs : List (String × String)) (key_name : String) :
    Except PyErr SQLOpsState :=
  pairs.foldlM
    (fun acc p =>
      if ¬ column_exists acc p.1 table_name then
        add_column acc p.1 p.2 (p.1 == key_name) table_name
      else .ok acc)
    st

/-- The CREATE TABLE string build of create_table (sql_ops.py:273-291)
followed by the cursor.execute at line 292, abstracted to the column list it
creates when the built statement is well-formed.

The loop appends " PRIMARY KEY, " after the key column and ");" after any
column equal to col_list[-1]; accessing col_list[-1] on an empty col_list
raises IndexError.  The statement parses only when the ");" terminator is
produced exactly once, at the final zipped column, and sqlite additionally
rejects duplicate column names. -/
def buildCreate (col_list new_col_list new_type_list : List String)
    (key_name : String) : Except PyErr (List Column) :=
  let pairs := new_col_list.zip new_type_list
  if pairs.any (fun p => p.1 ≠ key_name) ∧ col_list.getLast?.isNone then
    .error .indexError
  else
    match pairs.getLast?, col_list.getLast? with
    | some lp, some lastc =>
        if lp.1 = lastc ∧ lp.1 ≠ key_name ∧
            pairs.dropLast.all (fun p => p.1 = key_name ∨ p.1 ≠ lastc) ∧
            (pairs.map Prod.fst).Nodup then
          .ok (pairs.map (fun p => ⟨p.1, p.2, p.1 == key_name⟩))
        else .error (.engineError "malformed CREATE statement")
    | _, _ => .error (.engineError "malformed CREATE statement")

/-- create_table (sql_ops.py:235-293).

* An invalid type list only prints a diagnostic (line 262) and does not stop
  the call.
* drop=False on an existing table raises (lines 263-264).
* drop=True calls the buggy drop_table (line 266), which only acts when a
  table named "table" exists; when the target survives, the additive branch
  runs (lines 267-271) and the trailing cursor.execute of the still-empty
  sql_call (line 292) executes the empty statement, a no-op.
* On the fresh path with ordinal=True, the key becomes "ordinal", an integer
  "ordinal" column is prepended unless already listed, and the seed map gets
  entry 1 (lines 274-282).
* On the fresh path with ordinal=False, new_col_list was never assigned, so
  line 283 raises UnboundLocalError (modelled as nameError). -/
def create_table (st : SQLOpsState) (table_name : String)
    (col_list type_list : List String) (drop : Bool) (key_name : String)
    (ordinal : Bool) : Except PyErr SQLOpsState :=
  if ¬ drop ∧ table_exists st table_name then
    .error (.exception "ERROR: Table is already present.")
  else
    let st1 := if drop then drop_table st table_name else st
    if table_exists st1 table_name then
      addMissing st1 table_name (col_list.zip type_list) key_name
    else
      if ordinal then
        let kn := "ordinal"
        let ncl := if col_list.contains "ordinal" then col_list
                   else "ordinal" :: col_list
        let ntl := if col_list.contains "ordinal" then type_list
                   else "integer" :: type_list
        match buildCreate col_list ncl ntl kn with
        | .error e => .error e
        | .ok cols =>
            .ok { st1 with
                    tables := st1.tables ++ [⟨table_name, cols, []⟩],
                    ordinals := setSeed st1.ordinals table_name 1 }
      else
        .error (.nameError "new_col_list")

/-- select_rows (sql_ops.py:295-335), modelled for the two call shapes the
store itself uses: col_name is "*" (all columns) or one column name, and the
opaque WHERE fragment is a row predicate.  Rows come back in the engine scan
order, which is the stored order. -/
def select_rows (st : SQLOpsState) (col_name : String)
    (sql_filter : List PyVal → Bool) (table_name : String) :
    Except PyErr (List (List PyVal)) :=
  match getTable st table_name with
  | none => .error (.engineError "no such table")
  | some t =>
      let sel := t.rows.filter sql_filter
      if col_name = "*" then .ok sel
      else
        match t.cols.findIdx? (fun c => c.name = col_name) with
        | none => .error (.engineError "no such column")
        | some i => .ok (sel.map (fun r => [r.getD i PyVal.vNone]))

/-- get_next_ordinal (sql_ops.py:337-358): when the table has an ordinal
column, select that column and take the LAST fetched row plus one, falling
back to the seed map when there are no rows (KeyError when the seed is
absent); without an ordinal column, raise.  Adding 1 to a non-integer last
value is a Python TypeError (floats cannot reach a rowid-alias column). -/
def get_next_ordinal (st : SQLOpsState) (table_name : String) :
    Except PyErr Int :=
  if column_exists st "ordinal" table_name then
    match select_rows st "ordinal" (fun _ => true) table_name with
    | .error e => .error e
    | .ok current_id =>
        match current_id.getLast? with
        | none =>
            match lookupSeed st.ordinals table_name with
            | some v => .ok v
            | none => .error (.keyError table_name)
        | some row =>
            match row.headD PyVal.vNone with
            | .vInt n => .ok (n + 1)
            | .vBool b => .ok ((if b then 1 else 0) + 1)
            | _ => .error (.typeError "unsupported operand type for +")
  else .error (.exception "no ordinal column in table")

/-- Python str() of a value, as it reaches interpolated SQL text or the csv
writer. -/
def pyStrRepr : PyVal → String
  | .vInt n => toString n
  | .vBool b => if b then "True" else "False"
  | .vFloat r => r
  | .vStr s => s
  | .vNone => "None"

/-- How sqlite3 parameter binding converts a Python value (True binds as 1,
False as 0; everything else is passed through). -/
def bindCell : PyVal → PyVal
  | .vBool b => .vInt (if b then 1 else 0)
  | v => v

/-- The index of the rowid-alias column: a column declared integer that is
the primary key (the shape create_table produces for ordinal tables). -/
def rowidIdx? (t : Table) : Option Nat :=
  t.cols.findIdx? (fun c => c.pk ∧ c.sqlType = "integer")

/-- The integer at position i of a row (rowid-alias positions only ever hold
integers on reachable states). -/
def rowKey (i : Nat) (r : List PyVal) : Int :=
  match r.getD i PyVal.vNone with
  | .vInt n => n
  | _ => 0

/-- INSERT OR REPLACE against a rowid-alias table: replace the row with the
same rowid, else insert keeping rowid order (the order a later scan
returns). -/
def insertByRowid (i : Nat) (n : Int) (row : List PyVal) :
    List (List PyVal) → List (List PyVal)
  | [] => [row]
  | r :: rs =>
      if rowKey i r < n then r :: insertByRowid i n row rs
      else if rowKey i r = n then row :: rs
      else row :: r :: rs

/-- The engine's row write: arity must match the column count; a rowid-alias
table rejects a non-integer key (sqlite3.IntegrityError: datatype mismatch)
and replaces on equal keys; other tables append in arrival order. -/
def engineInsert (t : Table) (row : List PyVal) : Except PyErr Table :=
  if row.length ≠ t.cols.length then
    .error (.engineError "table columns and supplied values differ")
  else
    match rowidIdx? t with
    | none => .ok { t with rows := t.rows ++ [row] }
    | some i =>
        match row.getD i PyVal.vNone with
        | .vInt n => .ok { t with rows := insertByRowid i n row t.rows }
        | _ => .error (.engineError "datatype mismatch")

/-- One interpolated cell of __sql_gen_list (sql_ops.py:385-398): columns
typed integer, numeric, real or none get the raw str(value) in the SQL text,
so only numeric Python values survive (True/False are the sqlite keywords
for 1/0; str and None become unknown identifiers and the statement fails);
every other column type gets the value double-quoted, which sqlite reads as
a text literal of str(value). -/
def listCell (sqlType : String) (v : PyVal) : Except PyErr PyVal :=
  if ["integer", "numeric", "real", "none"].contains sqlType then
    match v with
    | .vInt n => .ok (.vInt n)
    | .vBool b => .ok (.vInt (if b then 1 else 0))
    | .vFloat r => .ok (.vFloat r)
    | _ => .error (.engineError "no such column")
  else .ok (.vStr (pyStrRepr v))

/-- The __sql_gen_list build (sql_ops.py:385-398) followed by cursor.execute of the
built statement (line 494).

* indexing table_types[index] raises IndexError when the data is longer
  than the column list;
* an empty data list builds an unterminated statement;
* the ");" terminator is emitted after every element equal to data[-1], so
  a duplicate of the last element makes the statement malformed;
* otherwise each cell is interpolated per its column type and the engine
  checks arity and the rowid key. -/
def sql_gen_list_exec (st : SQLOpsState) (table_name : String)
    (data : List PyVal) : Except PyErr SQLOpsState :=
  let types := get_column_types st table_name
  if types.length < data.length then .error .indexError
  else
    match data.getLast? with
    | none => .error (.engineError "incomplete input")
    | some lastv =>
        if data.dropLast.contains lastv then
          .error (.engineError "syntax error")
        else
          match ((types.take data.length).zip data).mapM
              (fun p => listCell p.1 p.2) with
          | .error e => .error e
          | .ok cells =>
              match getTable st table_name with
              | none => .error (.engineError "no such table")
              | some t =>
                  match engineInsert t cells with
                  | .error e => .error e
                  | .ok t2 => .ok (setTable st t2)

/-- The __sql_gen_tuple build (sql_ops.py:360-366) followed by cursor.executemany
(line 492): one "?" per live column, each tuple bound positionally; a tuple
of the wrong arity raises sqlite3.ProgrammingError. -/
def sql_gen_tuple_execmany (st : SQLOpsState) (table_name : String)
    (rows : List (List PyVal)) : Except PyErr SQLOpsState :=
  match getTable st table_name with
  | none => .error (.engineError "no such table")
  | some t =>
      match rows.foldlM
          (fun acc row =>
            if row.length ≠ acc.cols.length then
              Except.error (PyErr.engineError "incorrect number of bindings")
            else engineInsert acc (row.map bindCell))
          t with
      | .error e => .error e
      | .ok t2 => .ok (setTable st t2)

/-- Read a value from a Python dict of row data. -/
def dictGet (m : List (String × PyVal)) (k : String) : Option PyVal :=
  assocGet m k

/-- Write a value into a Python dict of row data. -/
def dictSet (m : List (String × PyVal)) (k : String) (v : PyVal) :
    List (String × PyVal) :=
  assocSet m k v

/-- The __validate_row_data_dict helper (sql_ops.py:400-402): the dict keys absent
from the live schema, in dict order. -/
def validate_row_data_dict (st : SQLOpsState) (m : List (String × PyVal))
    (table_name : String) : List String :=
  (m.map Prod.fst).filter
    (fun k => ¬ (get_column_names st table_name).contains k)

/-- The type inference for implicit columns in add_row (sql_ops.py:444-452
and 475-482): bool/int map to integer, float to real, str to text, anything
else to the string NULL (which check_types then rejects). -/
def inferSqlType : PyVal → String
  | .vInt _ => "integer"
  | .vBool _ => "integer"
  | .vFloat _ => "real"
  | .vStr _ => "text"
  | .vNone => "NULL"

/-- The implicit add_column loop of add_row (sql_ops.py:441-454 and
472-484): __validate_row_data_dict is evaluated once, then each absent key
gets add_column with its inferred type (errors propagate uncaught). -/
def addExtraColumns (st : SQLOpsState) (m : List (String × PyVal))
    (table_name : String) : Except PyErr SQLOpsState :=
  (validate_row_data_dict st m table_name).foldlM
    (fun acc k =>
      add_column acc k (inferSqlType ((dictGet m k).getD PyVal.vNone))
        false table_name)
    st

/-- The __sql_gen_dict build (sql_ops.py:368-383): it builds the named-parameter INSERT
OR REPLACE; for a column name containing a dot it copies the value to a key
with the dot replaced (mutating the same dict object the caller passed),
raising KeyError when that column is absent from the dict.  This runs
before the guarded execute, so its KeyError propagates. -/
def sql_gen_dict (cols : List String) (m : List (String × PyVal)) :
    Except PyErr (List (String × PyVal)) :=
  cols.foldlM
    (fun acc k =>
      if hasDot k then
        match dictGet acc k with
        | none => Except.error (PyErr.keyError k)
        | some v => Except.ok (dictSet acc (replaceDot k) v)
      else Except.ok acc)
    m

/-- The positional row that the named-parameter execute binds: per column,
the dict value under the column's binding name (dots replaced), converted
by the sqlite3 binding rules. -/
def dictRow (t : Table) (m : List (String × PyVal)) : List PyVal :=
  t.cols.map
    (fun c => bindCell ((dictGet m (replaceDot c.name)).getD PyVal.vNone))

/-- The cursor.execute(sql_call, self.row) call for the dict-shaped statement
(sql_ops.py:497): a column whose binding is absent from the dict raises
sqlite3.ProgrammingError; otherwise the bound row goes to the engine. -/
def dict_execute (st : SQLOpsState) (table_name : String)
    (m : List (String × PyVal)) : Except PyErr SQLOpsState :=
  match getTable st table_name with
  | none => .error (.engineError "no such table")
  | some t =>
      if (t.cols.map (fun c => dictGet m (replaceDot c.name))).any
          Option.isNone then
        .error (.engineError "You did not supply a value for binding")
      else
        match engineInsert t (dictRow t m) with
        | .error e => .error e
        | .ok t2 => .ok (setTable st t2)

/-- The row-data shapes add_row dispatches on (sql_ops.py:404-500): a
Python list whose first element is a tuple is a batch, any other list is
one positional row, a dict is a named row, anything else is unsupported.
An empty Python list hits row_data[0] and raises IndexError before the
tuple test can classify it, so both list constructors model it. -/
inductive RowData where
  | rList (vs : List PyVal)
  | rBatch (vss : List (List PyVal))
  | rDict (m : List (String × PyVal))
  | rOther
deriving DecidableEq, Repr

/-- What an add_row call leaves behind: the store, the caller's row_data
object after the call (add_row mutates it in place), the exception that
propagated (none = returned normally), and the errors that were caught and
only printed (sql_ops.py:498-499). -/
structure AddRowResult where
  state : SQLOpsState
  row_data : RowData
  err : Option PyErr
  diag : List PyErr
deriving DecidableEq, Repr

/-- The ordinal-table positional branch of add_row (sql_ops.py:424-436 then
490-494): when the list length differs from the column count, the next
ordinal is inserted at position 0 of the caller's list; the statement is
then built and executed with no exception handler. -/
def addRowListOrdinal (st : SQLOpsState) (vs : List PyVal)
    (table_name : String) : AddRowResult :=
  if vs.isEmpty then ⟨st, .rList vs, some .indexError, []⟩
  else
    let step : Except PyErr (List PyVal) :=
      if vs.length ≠ (get_column_names st table_name).length then
        match get_next_ordinal st table_name with
        | .error e => .error e
        | .ok n => .ok (PyVal.vInt n :: vs)
      else .ok vs
    match step with
    | .error e => ⟨st, .rList vs, some e, []⟩
    | .ok vs2 =>
        match sql_gen_list_exec st table_name vs2 with
        | .error e => ⟨st, .rList vs2, some e, []⟩
        | .ok st2 => ⟨st2, .rList vs2, none, []⟩

/-- The plain positional branch of add_row (sql_ops.py:464-469 then
490-494): build and execute, no ordinal handling, no exception handler. -/
def addRowListPlain (st : SQLOpsState) (vs : List PyVal)
    (table_name : String) : AddRowResult :=
  if vs.isEmpty then ⟨st, .rList vs, some .indexError, []⟩
  else
    match sql_gen_list_exec st table_name vs with
    | .error e => ⟨st, .rList vs, some e, []⟩
    | .ok st2 => ⟨st2, .rList vs, none, []⟩

/-- The batch branch of add_row (sql_ops.py:425-427 / 465-467 then
491-492): the tuple statement is built and run through executemany with no
exception handler. -/
def addRowBatch (st : SQLOpsState) (vss : List (List PyVal))
    (table_name : String) : AddRowResult :=
  if vss.isEmpty then ⟨st, .rBatch vss, some .indexError, []⟩
  else
    match sql_gen_tuple_execmany st table_name vss with
    | .error e => ⟨st, .rBatch vss, some e, []⟩
    | .ok st2 => ⟨st2, .rBatch vss, none, []⟩

/-- Line 439-440 of add_row: a dict without an ordinal key gets the next
ordinal written into the caller's dict. -/
def addRowDictStep1 (st : SQLOpsState) (m : List (String × PyVal))
    (table_name : String) : Except PyErr (List (String × PyVal)) :=
  if (dictGet m "ordinal").isNone then
    match get_next_ordinal st table_name with
    | .error e => .error e
    | .ok n => .ok (dictSet m "ordinal" (.vInt n))
  else .ok m

/-- Lines 455-457 of add_row: every live column absent from the dict is
written into the caller's dict as the empty string (the comprehension over
missing columns is evaluated once, before the loop runs). -/
def fillMissing (cols : List String) (m : List (String × PyVal)) :
    List (String × PyVal) :=
  (cols.filter (fun k => (dictGet m k).isNone)).foldl
    (fun acc k => dictSet acc k (PyVal.vStr "")) m

/-- The ordinal-table dict branch of add_row (sql_ops.py:437-459 then
495-499): assign the ordinal, add implicit columns (uncaught), fill missing
columns with the empty string, build the statement (uncaught), then execute
inside try/except — an engine failure there is printed and swallowed. -/
def addRowDictOrdinal (st : SQLOpsState) (m : List (String × PyVal))
    (table_name : String) : AddRowResult :=
  match addRowDictStep1 st m table_name with
  | .error e => ⟨st, .rDict m, some e, []⟩
  | .ok m1 =>
      match addExtraColumns st m1 table_name with
      | .error e => ⟨st, .rDict m1, some e, []⟩
      | .ok st1 =>
          let m2 := fillMissing (get_column_names st1 table_name) m1
          match sql_gen_dict (get_column_names st1 table_name) m2 with
          | .error e => ⟨st1, .rDict m2, some e, []⟩
          | .ok m3 =>
              match dict_execute st1 table_name m3 with
              | .error e => ⟨st1, .rDict m3, none, [e]⟩
              | .ok st2 => ⟨st2, .rDict m3, none, []⟩

/-- The plain dict branch of add_row (sql_ops.py:470-487 then 495-499):
implicit columns are added, but missing columns are NOT filled in; the
guarded execute then fails on any missing binding and the failure is only
printed. -/
def addRowDictPlain (st : SQLOpsState) (m : List (String × PyVal))
    (table_name : String) : AddRowResult :=
  match addExtraColumns st m table_name with
  | .error e => ⟨st, .rDict m, some e, []⟩
  | .ok st1 =>
      match sql_gen_dict (get_column_names st1 table_name) m with
      | .error e => ⟨st1, .rDict m, some e, []⟩
      | .ok m1 =>
          match dict_execute st1 table_name m1 with
          | .error e => ⟨st1, .rDict m1, none, [e]⟩
          | .ok st2 => ⟨st2, .rDict m1, none, []⟩

/-- add_row (sql_ops.py:404-500): dispatch on the ordinal column and the
runtime shape of row_data; any other shape raises TypeError. -/
def add_row (st : SQLOpsState) (row_data : RowData) (table_name : String) :
    AddRowResult :=
  if column_exists st "ordinal" table_name then
    match row_data with
    | .rList vs => addRowListOrdinal st vs table_name
    | .rBatch vss => addRowBatch st vss table_name
    | .rDict m => addRowDictOrdinal st m table_name
    | .rOther =>
        ⟨st, .rOther, some (.typeError "row data is an unsupported type"), []⟩
  else
    match row_data with
    | .rList vs => addRowListPlain st vs table_name
    | .rBatch vss => addRowBatch st vss table_name
    | .rDict m => addRowDictPlain st m table_name
    | .rOther =>
        ⟨st, .rOther, some (.typeError "row data is an unsupported type"), []⟩

/-- One csv field as csv.writer renders a bound value (None becomes the
empty field). -/
def csvCell : PyVal → String
  | .vNone => ""
  | v => pyStrRepr v

/-- export_csv (sql_ops.py:502-532), modelled as the list of csv records
written (header first).

* The guard at line 521 tests the BUILTIN filter, which is always truthy,
  so the filtered select always runs (an empty sql_filter is then an
  unfiltered select) — same selection either way.
* Line 520 assigns sqlite3.Row to the CONNECTION row factory, but the
  cursor in use was created at construction (line 58) and keeps the factory
  it was created with; rows are therefore Row objects (with .keys()) only
  when the store was constructed with row_factory=True.
* record.keys() on the first fetched row writes the header; with no rows,
  record is None and the attribute access raises AttributeError — after
  open(filename, "w") has already created/truncated the file. -/
def export_csv (st : SQLOpsState) (sql_filter : List PyVal → Bool)
    (table_name : String) : Except PyErr (List (List String)) :=
  match select_rows st "*" sql_filter table_name with
  | .error e => .error e
  | .ok rows =>
      match rows with
      | [] => .error (.attributeError "NoneType object has no attribute keys")
      | r :: rs =>
          if ¬ st.rowFactory then
            .error (.attributeError "tuple object has no attribute keys")
          else
            .ok ((get_column_names st table_name) ::
              (r :: rs).map (fun row => row.map csvCell))

/-- The construction parameters SQLOps.__init__ settles on when it does not
raise. -/
structure SQLOpsConfig where
  base_filename : String
  rotation_interval : Int
  backing_file : String
deriving DecidableEq, Repr

/-- SQLOps.__init__ (sql_ops.py:35-61), with the wall clock passed in as
now.

* Line 38 tests db_rotation_time not in range(86400, 1209600): range
  excludes its upper bound, so 1209600 raises even though the docstring
  allows "86400 (1 day) to 1209600 (2 weeks) seconds".
* The guard at lines 47-48 repeats the condition of line 43, which is
  False on this branch, so the ValueError for :memory: with rotation
  (lines 49-50) is unreachable and such a construction succeeds. -/
def SQLOps.init (now : Int) (filename : String) (db_rotation_time : Int) :
    Except PyErr SQLOpsConfig :=
  if ¬ (86400 ≤ db_rotation_time ∧ db_rotation_time < 1209600) ∧
      db_rotation_time ≠ 0 then
    .error (.valueError "db_rotation_time is not a valid value.")
  else
    if filename ≠ ":memory:" ∧ db_rotation_time ≠ 0 then
      .ok ⟨filename, db_rotation_time,
           filename ++ "_" ++ toString now ++ ".db"⟩
    else
      if filename ≠ ":memory:" ∧ db_rotation_time ≠ 0 then
        .error (.valueError "db_rotation_time must be 0 if using :memory:.")
      else if filename ≠ ":memory:" then
        .ok ⟨filename, db_rotation_time, filename ++ ".db"⟩
      else
        .ok ⟨filename, db_rotation_time, filename⟩

/-- Whether a value is a Python int. -/
def PyVal.isInt : PyVal → Bool
  | .vInt _ => true
  | _ => false

/-- The position of the column named ordinal, exactly as select_rows
locates a selected column. -/
def ordIdx? (t : Table) : Option Nat :=
  t.cols.findIdx? (fun c => c.name = "ordinal")

/-- The backing-engine invariant of a table whose ordinal column is the
rowid alias (the shape create_table with ordinal=True produces): the
column named ordinal is the integer primary key, every stored row holds an
integer there, and rows sit in rowid order, i.e. strictly increasing
ordinals — which is the order an unordered SELECT scans them in. -/
def OrdinalWF (t : Table) (i : Nat) : Prop :=
  ordIdx? t = some i ∧ rowidIdx? t = some i ∧
  (∀ r ∈ t.rows, (r.getD i PyVal.vNone).isInt = true) ∧
  t.rows.Pairwise (fun a b => rowKey i a < rowKey i b)

instance (t : Table) (i : Nat) : Decidable (OrdinalWF t i) := by
  unfold OrdinalWF
  infer_instance

/-- The (column, type) pairs of a create_table call that are missing from
the live schema — the ones the additive branch adds. -/
def missingPairs (st : SQLOpsState) (tname : String)
    (pairs : List (String × String)) : List (String × String) :=
  pairs.filter (fun p => ¬ column_exists st p.1 tname)

/-- Example store: a freshly created ordinal table t(ordinal, name) with
seed 1 and no rows, on a row_factory=True store. -/
def exStT : SQLOpsState :=
  ⟨[⟨"t", [⟨"ordinal", "integer", true⟩, ⟨"name", "text", false⟩], []⟩],
   [("t", 1)], true⟩

/-- Example store: the same table t holding rows with ordinals 2 and 5. -/
def exStRows : SQLOpsState :=
  ⟨[⟨"t", [⟨"ordinal", "integer", true⟩, ⟨"name", "text", false⟩],
     [[PyVal.vInt 2, PyVal.vStr "a"], [PyVal.vInt 5, PyVal.vStr "b"]]⟩],
   [("t", 1)], true⟩

/-- Example store: a plain two-column table p(a, b) with no ordinal
column. -/
def exStP : SQLOpsState :=
  ⟨[⟨"p", [⟨"a", "text", false⟩, ⟨"b", "text", false⟩], []⟩], [], true⟩

/-- Example store: the only table is dogs — no table named table. -/
def exStDogs : SQLOpsState :=
  ⟨[⟨"dogs", [⟨"breed", "text", false⟩], [[PyVal.vStr "St. Bernard"]]⟩],
   [], false⟩

/-- Example store: both a table named table and dogs. -/
def exStBoth : SQLOpsState :=
  ⟨[⟨"table", [⟨"a", "text", false⟩], []⟩,
    ⟨"dogs", [⟨"breed", "text", false⟩], []⟩], [], false⟩

/-- Example store: empty. -/
def exStEmpty : SQLOpsState := ⟨[], [], false⟩

/-! Helper lemmas about the embedding's data structures. -/

theorem mem_insertSorted {a s : String} {l : List String} :
    a ∈ insertSorted s l ↔ a = s ∨ a ∈ l := by
  induction l with
  | nil => simp [insertSorted]
  | cons x xs ih =>
      cases h : lexLe s.data x.data with
      | true => simp [insertSorted, h]
      | false =>
          simp only [insertSorted, h, Bool.false_eq_true, if_false,
            List.mem_cons, ih]
          tauto

theorem mem_sortNames {a : String} {l : List String} :
    a ∈ sortNames l ↔ a ∈ l := by
  induction l with
  | nil => simp [sortNames]
  | cons x xs ih => simp [sortNames, mem_insertSorted, ih]

theorem name_of_getTable {st : SQLOpsState} {tname : String} {t : Table}
    (h : getTable st tname = some t) : t.name = tname := by
  have := List.find?_some h
  simpa using this

theorem mem_of_getTable {st : SQLOpsState} {tname : String} {t : Table}
    (h : getTable st tname = some t) : t ∈ st.tables :=
  List.mem_of_find?_eq_some h

theorem table_exists_of_getTable {st : SQLOpsState} {tname : String}
    {t : Table} (h : getTable st tname = some t) :
    table_exists st tname = true := by
  have hm : tname ∈ st.tables.map Table.name := by
    exact List.mem_map.mpr ⟨t, mem_of_getTable h, name_of_getTable h⟩
  simp only [table_exists, get_tables]
  exact List.elem_iff.mpr (mem_sortNames.mpr hm)

theorem find?_name_map_set {l : List Table} {tname : String} {t t2 : Table}
    (hg : l.find? (fun u => u.name = tname) = some t) (hn : t2.name = tname) :
    (l.map (fun u => if u.name = t2.name then t2 else u)).find?
        (fun u => u.name = tname) = some t2 := by
  induction l with
  | nil => simp at hg
  | cons x xs ih =>
      by_cases hx : x.name = tname
      · have hxx : x.name = t2.name := by rw [hn, hx]
        simp only [List.map_cons, if_pos hxx]
        exact List.find?_cons_of_pos _ (by simp [hn])
      · have hxx : ¬ x.name = t2.name := by rw [hn]; exact hx
        rw [List.find?_cons_of_neg _ (by simpa using hx)] at hg
        simp only [List.map_cons, if_neg hxx]
        rw [List.find?_cons_of_neg _ (by simpa using hx)]
        exact ih hg

theorem getTable_setTable {st : SQLOpsState} {tname : String} {t t2 : Table}
    (hg : getTable st tname = some t) (hn : t2.name = tname) :
    getTable (setTable st t2) tname = some t2 := by
  simp only [getTable, setTable] at *
  exact find?_name_map_set hg hn

theorem find?_fst_map_replace {α : Type} (m : List (String × α)) (k : String)
    (v : α) :
    ((m.map (fun p => if p.1 = k then (k, v) else p)).find?
        (fun p => p.1 = k)) =
      (m.find? (fun p => p.1 = k)).map (fun _ => (k, v)) := by
  induction m with
  | nil => rfl
  | cons x xs ih =>
      by_cases hx : x.1 = k
      · simp only [List.map_cons, if_pos hx]
        rw [List.find?_cons_of_pos _ (by simp), List.find?_cons_of_pos _ (by simp [hx])]
        rfl
      · simp only [List.map_cons, if_neg hx]
        rw [List.find?_cons_of_neg _ (by simpa using hx),
            List.find?_cons_of_neg _ (by simpa using hx)]
        exact ih

theorem find?_fst_map_replace_ne {α : Type} (m : List (String × α))
    (k k2 : String) (v : α) (h : k2 ≠ k) :
    ((m.map (fun p => if p.1 = k then (k, v) else p)).find?
        (fun p => p.1 = k2)) = m.find? (fun p => p.1 = k2) := by
  induction m with
  | nil => rfl
  | cons x xs ih =>
      by_cases hx : x.1 = k
      · have h1 : ¬ ((k : String), v).1 = k2 := by simpa using (Ne.symm h)
        have h2 : ¬ x.1 = k2 := by rw [hx]; exact Ne.symm h
        simp only [List.map_cons, if_pos hx]
        rw [List.find?_cons_of_neg _ (by simpa using h1),
            List.find?_cons_of_neg _ (by simpa using h2)]
        exact ih
      · simp only [List.map_cons, if_neg hx]
        by_cases hx2 : x.1 = k2
        · rw [List.find?_cons_of_pos _ (by simpa using hx2),
              List.find?_cons_of_pos _ (by simpa using hx2)]
        · rw [List.find?_cons_of_neg _ (by simpa using hx2),
              List.find?_cons_of_neg _ (by simpa using hx2)]
          exact ih

theorem assocGet_assocSet_self {α : Type} (m : List (String × α)) (k : String)
    (v : α) : assocGet (assocSet m k v) k = some v := by
  simp only [assocGet, assocSet]
  by_cases h : (m.find? (fun p => p.1 = k)).isSome
  · rw [if_pos h, find?_fst_map_replace]
    cases hf : m.find? (fun p => p.1 = k) with
    | none => rw [hf] at h; simp at h
    | some q => simp
  · rw [if_neg h, List.find?_append]
    cases hf : m.find? (fun p => p.1 = k) with
    | none => simp [List.find?_cons]
    | some q => rw [hf] at h; simp at h

theorem assocGet_assocSet_ne {α : Type} (m : List (String × α))
    (k k2 : String) (v : α) (h : k2 ≠ k) :
    assocGet (assocSet m k v) k2 = assocGet m k2 := by
  simp only [assocGet, assocSet]
  by_cases hs : (m.find? (fun p => p.1 = k)).isSome
  · rw [if_pos hs, find?_fst_map_replace_ne _ _ _ _ h]
  · rw [if_neg hs, List.find?_append]
    cases hf : m.find? (fun p => p.1 = k2) with
    | some q => simp
    | none =>
        simp only [Option.none_or]
        rw [List.find?_cons_of_neg _ (by simpa using (Ne.symm h))]
        simp

theorem mem_of_getLast?_eq_some {α : Type} {l : List α} {a : α}
    (h : l.getLast? = some a) : a ∈ l := by
  induction l with
  | nil => simp at h
  | cons x xs ih =>
      cases xs with
      | nil =>
          simp only [List.getLast?_singleton, Option.some.injEq] at h
          simp [h]
      | cons y ys =>
          rw [List.getLast?_cons_cons] at h
          exact List.mem_cons_of_mem _ (ih h)

theorem max?_sorted {l : List Int}
    (h : l.Pairwise (fun x y => x < y)) : l.max? = l.getLast? := by
  induction l with
  | nil => rfl
  | cons a as ih =>
      cases as with
      | nil => rfl
      | cons b bs =>
          have hp := List.pairwise_cons.mp h
          have hab : a < b := hp.1 b (List.mem_cons_self b bs)
          have ih2 := ih hp.2
          rw [List.getLast?_cons_cons, ← ih2]
          show some (List.foldl max a (b :: bs)) = some (List.foldl max b bs)
          rw [List.foldl_cons, max_eq_right hab.le]

theorem exists_of_findIdx?_eq_some {α : Type} {p : α → Bool} {l : List α}
    {i : Nat} (h : l.findIdx? p = some i) : ∃ x ∈ l, p x = true := by
  induction l generalizing i with
  | nil => simp [List.findIdx?] at h
  | cons x xs ih =>
      rw [List.findIdx?_cons] at h
      by_cases hx : p x
      · exact ⟨x, List.mem_cons_self x xs, hx⟩
      · rw [if_neg (by simpa using hx)] at h
        rw [List.findIdx?_succ] at h
        cases ho : xs.findIdx? p with
        | none => rw [ho] at h; simp at h
        | some j =>
            obtain ⟨y, hy, hpy⟩ := ih ho
            exact ⟨y, List.mem_cons_of_mem _ hy, hpy⟩

theorem lookupSeed_setSeed (m : List (String × Int)) (k : String) (v : Int) :
    lookupSeed (setSeed m k v) k = some v := by
  simp only [lookupSeed, setSeed]
  exact assocGet_assocSet_self m k v

theorem fill_foldl_sets (ks : List String) (m : List (String × PyVal))
    (c : String)
    (h : c ∈ ks ∨ dictGet m c = some (PyVal.vStr "")) :
    dictGet (ks.foldl (fun a k => dictSet a k (PyVal.vStr "")) m) c =
      some (PyVal.vStr "") := by
  induction ks generalizing m with
  | nil =>
      cases h with
      | inl h => cases h
      | inr h => simpa using h
  | cons k ks ih =>
      rw [List.foldl_cons]
      apply ih
      cases h with
      | inl hmem =>
          rcases List.mem_cons.mp hmem with h1 | h2
          · subst h1
            right
            exact assocGet_assocSet_self m c (PyVal.vStr "")
          · left; exact h2
      | inr hv =>
          right
          by_cases hck : c = k
          · subst hck
            exact assocGet_assocSet_self m c (PyVal.vStr "")
          · rw [show dictGet (dictSet m k (PyVal.vStr "")) c =
                  dictGet m c from assocGet_assocSet_ne m k c _ hck]
            exact hv

theorem fill_foldl_preserves (ks : List String) (m : List (String × PyVal))
    (c : String) (v : PyVal) (hk : ∀ k ∈ ks, k ≠ c)
    (h : dictGet m c = some v) :
    dictGet (ks.foldl (fun a k => dictSet a k (PyVal.vStr "")) m) c =
      some v := by
  induction ks generalizing m with
  | nil => simpa using h
  | cons k ks ih =>
      rw [List.foldl_cons]
      apply ih _ (fun x hx => hk x (List.mem_cons_of_mem _ hx))
      have hck : c ≠ k := Ne.symm (hk k (List.mem_cons_self k ks))
      rw [show dictGet (dictSet m k (PyVal.vStr "")) c =
            dictGet m c from assocGet_assocSet_ne m k c _ hck]
      exact h

theorem fillMissing_of_missing (cols : List String)
    (m : List (String × PyVal)) (c : String) (hc : c ∈ cols)
    (hm : dictGet m c = none) :
    dictGet (fillMissing cols m) c = some (PyVal.vStr "") := by
  apply fill_foldl_sets
  left
  exact List.mem_filter.mpr ⟨hc, by simp [hm]⟩

theorem fillMissing_preserves (cols : List String)
    (m : List (String × PyVal)) (c : String) (v : PyVal)
    (h : dictGet m c = some v) :
    dictGet (fillMissing cols m) c = some v := by
  apply fill_foldl_preserves
  · intro k hk
    have := (List.mem_filter.mp hk).2
    intro hkc
    subst hkc
    simp [h] at this
  · exact h

theorem sql_gen_dict_no_dots (cols : List String)
    (m : List (String × PyVal)) (h : ∀ k ∈ cols, hasDot k = false) :
    sql_gen_dict cols m = Except.ok m := by
  induction cols with
  | nil => rfl
  | cons k ks ih =>
      have hk : hasDot k = false := h k (List.mem_cons_self k ks)
      simp only [sql_gen_dict, List.foldlM_cons, hk, Bool.false_eq_true,
        if_false]
      show (Except.ok m >>= fun b => List.foldlM _ b ks) = Except.ok m
      rw [show ((Except.ok m : Except PyErr (List (String × PyVal))) >>=
            fun b => List.foldlM (fun acc k =>
              if hasDot k then
                match dictGet acc k with
                | none => Except.error (PyErr.keyError k)
                | some v => Except.ok (dictSet acc (replaceDot k) v)
              else Except.ok acc) b ks) =
          List.foldlM (fun acc k =>
              if hasDot k then
                match dictGet acc k with
                | none => Except.error (PyErr.keyError k)
                | some v => Except.ok (dictSet acc (replaceDot k) v)
              else Except.ok acc) m ks from rfl]
      exact ih (fun x hx => h x (List.mem_cons_of_mem _ hx))

theorem column_exists_of_ordIdx? {st : SQLOpsState} {tname : String}
    {t : Table} {i : Nat} (ht : getTable st tname = some t)
    (hi : ordIdx? t = some i) :
    column_exists st "ordinal" tname = true := by
  obtain ⟨c, hc, hpc⟩ := exists_of_findIdx?_eq_some hi
  have hname : c.name = "ordinal" := by simpa using hpc
  have hm : "ordinal" ∈ t.cols.map Column.name :=
    List.mem_map.mpr ⟨c, hc, hname⟩
  simp only [column_exists, get_column_names, ht]
  exact List.elem_iff.mpr hm

theorem select_ordinal_eq {st : SQLOpsState} {tname : String} {t : Table}
    {i : Nat} (ht : getTable st tname = some t) (hi : ordIdx? t = some i) :
    select_rows st "ordinal" (fun _ => true) tname =
      Except.ok (t.rows.map (fun r => [r.getD i PyVal.vNone])) := by
  simp only [ordIdx?] at hi
  simp only [select_rows, ht, List.filter_true, hi]
  rw [if_neg (by decide)]

/-- C2: for every table with an ordinal column, get_next_ordinal returns
1 plus the maximum ordinal among the stored rows, or the table's
initialized seed (1 for a freshly created ordinal table) when the table has
no rows; for a table without an ordinal column it fails with the
missing-ordinal-column error. -/
theorem get_next_ordinal_correct (st : SQLOpsState) (tname : String) :
    (∀ t i mx, getTable st tname = some t → OrdinalWF t i →
        (t.rows.map (rowKey i)).max? = some mx →
        get_next_ordinal st tname = Except.ok (mx + 1)) ∧
    (∀ t i s, getTable st tname = some t → OrdinalWF t i → t.rows = [] →
        lookupSeed st.ordinals tname = some s →
        get_next_ordinal st tname = Except.ok s) ∧
    (column_exists st "ordinal" tname = false →
        get_next_ordinal st tname =
          Except.error (PyErr.exception "no ordinal column in table")) ∧
    (∀ cl tl st2, create_table st tname cl tl false "" true = Except.ok st2 →
        lookupSeed st2.ordinals tname = some 1) := by
  refine ⟨?_, ?_, ?_, ?_⟩
  · intro t i mx ht hwf hmax
    obtain ⟨hi, hrid, hint, hsort⟩ := hwf
    have hcol := column_exists_of_ordIdx? ht hi
    have hsel := select_ordinal_eq ht hi
    have hpair : (t.rows.map (rowKey i)).Pairwise (fun a b => a < b) :=
      List.pairwise_map.mpr hsort
    have hgl : (t.rows.getLast?).map (rowKey i) = some mx := by
      rw [← List.getLast?_map, ← max?_sorted hpair]
      exact hmax
    cases hlr : t.rows.getLast? with
    | none => rw [hlr] at hgl; simp at hgl
    | some lr =>
        rw [hlr] at hgl
        have hmx : rowKey i lr = mx := by simpa using hgl
        have hmem := mem_of_getLast?_eq_some hlr
        have hisInt := hint lr hmem
        cases hv : lr.getD i PyVal.vNone with
        | vInt n =>
            have hv2 : lr[i]?.getD PyVal.vNone = PyVal.vInt n := by
              rw [← List.getD_eq_getElem?_getD]; exact hv
            have hn : n = mx := by
              rw [← hmx]; simp [rowKey, List.getD_eq_getElem?_getD, hv2]
            subst hn
            simp only [get_next_ordinal, hcol, if_true, hsel]
            rw [List.getLast?_map, hlr]
            simp [List.getD_eq_getElem?_getD, hv2]
        | vBool b => rw [hv] at hisInt; simp [PyVal.isInt] at hisInt
        | vFloat r => rw [hv] at hisInt; simp [PyVal.isInt] at hisInt
        | vStr s => rw [hv] at hisInt; simp [PyVal.isInt] at hisInt
        | vNone => rw [hv] at hisInt; simp [PyVal.isInt] at hisInt
  · intro t i s ht hwf hempty hseed
    obtain ⟨hi, hrid, hint, hsort⟩ := hwf
    have hcol := column_exists_of_ordIdx? ht hi
    have hsel := select_ordinal_eq ht hi
    simp only [get_next_ordinal, hcol, if_true, hsel, hempty]
    simp [hseed]
  · intro hcol
    simp [get_next_ordinal, hcol]
  · intro cl tl st2 hok
    by_cases hex : table_exists st tname = true
    · simp [create_table, hex] at hok
    · have hexf : table_exists st tname = false := by
        simpa using hex
      simp only [create_table, hexf, Bool.false_eq_true, and_false,
        not_false_eq_true, if_false, if_true, Bool.not_eq_true] at hok
      cases hb : buildCreate cl
          (if cl.contains "ordinal" then cl else "ordinal" :: cl)
          (if cl.contains "ordinal" then tl else "integer" :: tl)
          "ordinal" with
      | error e => rw [hb] at hok; simp at hok
      | ok cols =>
          rw [hb] at hok
          simp only [Except.ok.injEq] at hok
          rw [← hok]
          exact lookupSeed_setSeed st.ordinals tname 1

/-- Witness for C2: the empty seeded ordinal table gives 1, the table whose
largest ordinal is 5 gives 6, a table without an ordinal column raises, and
a fresh ordinal creation initializes the seed to 1. -/
theorem get_next_ordinal_correct_witness :
    get_next_ordinal exStRows "t" = Except.ok 6 ∧
    get_next_ordinal exStT "t" = Except.ok 1 ∧
    get_next_ordinal exStP "p" =
      Except.error (PyErr.exception "no ordinal column in table") ∧
    lookupSeed (SQLOpsState.mk
      [⟨"t", [⟨"ordinal", "integer", true⟩, ⟨"name", "text", false⟩], []⟩]
      [("t", 1)] false).ordinals "t" = some 1 := by
  refine ⟨?_, ?_, ?_, ?_⟩
  · exact (get_next_ordinal_correct exStRows "t").1
      ⟨"t", [⟨"ordinal", "integer", true⟩, ⟨"name", "text", false⟩],
        [[PyVal.vInt 2, PyVal.vStr "a"], [PyVal.vInt 5, PyVal.vStr "b"]]⟩
      0 5 (by decide) (by decide) (by decide)
  · exact (get_next_ordinal_correct exStT "t").2.1
      ⟨"t", [⟨"ordinal", "integer", true⟩, ⟨"name", "text", false⟩], []⟩
      0 1 (by decide) (by decide) (by decide) (by decide)
  · exact (get_next_ordinal_correct exStP "p").2.2.1 (by decide)
  · exact (get_next_ordinal_correct exStEmpty "t").2.2.2 ["name"] ["text"]
      (SQLOpsState.mk
        [⟨"t", [⟨"ordinal", "integer", true⟩, ⟨"name", "text", false⟩], []⟩]
        [("t", 1)] false)
      (by decide)

/-- C1 counterexample: create_table on an already existing table with
drop=False raises the table-already-present error instead of adding the
missing columns, so the claimed no-raise additive behaviour is false as
stated. -/
theorem create_table_existing_raises :
    create_table exStT "t" ["name", "extra"] ["text", "text"] false "" true =
      Except.error (PyErr.exception "ERROR: Table is already present.") := by
  decide

/-- C3 counterexample: a positional row (a supported shape) whose engine
insert fails — two text values interpolated into t(ordinal integer, name
text) — propagates the engine failure out of add_row instead of catching
and reporting it: err is set and nothing was recorded as a diagnostic. -/
theorem add_row_list_failure_propagates :
    (add_row exStT (RowData.rList [PyVal.vStr "a", PyVal.vStr "b"]) "t").err =
      some (PyErr.engineError "no such column") ∧
    (add_row exStT (RowData.rList [PyVal.vStr "a", PyVal.vStr "b"]) "t").diag =
      [] := by
  decide

/-- C4 counterexample: export_csv over an empty selection raises
AttributeError (record is None when fetchone finds nothing), contradicting
the claim that an empty selection produces no output and does not raise. -/
theorem export_csv_empty_raises :
    export_csv exStT (fun _ => true) "t" =
      Except.error
        (PyErr.attributeError "NoneType object has no attribute keys") := by
  decide

/-- C6 counterexample: on a table without an ordinal column, a mapping that
omits declared column b does not get b persisted as empty text — the
binding for b is missing, the engine failure is swallowed, and no row is
stored at all (the state is unchanged). -/
theorem add_row_missing_column_not_persisted_plain :
    add_row exStP (RowData.rDict [("a", PyVal.vStr "x")]) "p" =
      ⟨exStP, RowData.rDict [("a", PyVal.vStr "x")], none,
       [PyErr.engineError "You did not supply a value for binding"]⟩ := by
  decide

/-- C5: on a fresh table name with ordinal=False, create_table dies with
UnboundLocalError — new_col_list is only ever assigned under the ordinal
branch (sql_ops.py:274-283) — instead of creating the declared columns;
with ordinal=True the declared columns do come back in declaration order
behind the prepended integer ordinal column. -/
theorem create_table_ordinal_false_unbound :
    create_table exStEmpty "t" ["name", "score"] ["text", "real"] false ""
        false = Except.error (PyErr.nameError "new_col_list") ∧
    create_table exStEmpty "t" ["name", "score"] ["text", "real"] false ""
        true = Except.ok (SQLOpsState.mk
          [⟨"t", [⟨"ordinal", "integer", true⟩, ⟨"name", "text", false⟩,
                  ⟨"score", "real", false⟩], []⟩]
          [("t", 1)] false) ∧
    get_column_names (SQLOpsState.mk
          [⟨"t", [⟨"ordinal", "integer", true⟩, ⟨"name", "text", false⟩,
                  ⟨"score", "real", false⟩], []⟩]
          [("t", 1)] false) "t" = ["ordinal", "name", "score"] ∧
    get_column_types (SQLOpsState.mk
          [⟨"t", [⟨"ordinal", "integer", true⟩, ⟨"name", "text", false⟩,
                  ⟨"score", "real", false⟩], []⟩]
          [("t", 1)] false) "t" = ["integer", "text", "real"] := by
  decide

/-- C7: a mapping with an undeclared key bound to None infers the type
string NULL (sql_ops.py:452), which add_column's check_types rejects, so
add_row raises ValueError and the column never appears in the schema — the
claimed untyped column is never added.  (With an int value the inference
does add an integer column, for contrast.) -/
theorem add_row_untyped_inference_rejected :
    (add_row exStT
        (RowData.rDict [("name", PyVal.vStr "a"), ("extra", PyVal.vNone)])
        "t").err =
      some (PyErr.valueError "ERROR: type is not a valid sql data type.") ∧
    column_exists
      (add_row exStT
        (RowData.rDict [("name", PyVal.vStr "a"), ("extra", PyVal.vNone)])
        "t").state "extra" "t" = false ∧
    column_exists
      (add_row exStT
        (RowData.rDict [("name", PyVal.vStr "a"), ("extra", PyVal.vInt 7)])
        "t").state "extra" "t" = true := by
  decide

/-- C8: the rotation-interval validation uses range(86400, 1209600), which
excludes the documented upper endpoint 1209600, and the :memory: guard
repeats an already-false condition, so a :memory: store with a nonzero
interval constructs without error — both contradicting the claimed
validation rule (and the constructor docstring). -/
theorem sqlops_init_interval_bounds :
    SQLOps.init 0 "file" 1209600 =
      Except.error (PyErr.valueError "db_rotation_time is not a valid value.") ∧
    SQLOps.init 0 ":memory:" 86400 =
      Except.ok ⟨":memory:", 86400, ":memory:"⟩ ∧
    SQLOps.init 0 "file" 86400 = Except.ok ⟨"file", 86400, "file_0.db"⟩ ∧
    SQLOps.init 0 "file" 0 = Except.ok ⟨"file", 0, "file.db"⟩ ∧
    SQLOps.init 0 "file" 86399 =
      Except.error (PyErr.valueError "db_rotation_time is not a valid value.") := by
  decide

/-- C9: drop_table's guard checks for a table named "table" instead of the
argument, so dropping dogs from a store that has no table named "table" is
a no-op and dogs survives; with a table named "table" present the same
call does drop dogs. -/
theorem drop_table_wrong_guard :
    drop_table exStDogs "dogs" = exStDogs ∧
    table_exists (drop_table exStDogs "dogs") "dogs" = true ∧
    table_exists (drop_table exStBoth "dogs") "dogs" = false := by
  decide

/-- C4 amended: on a store constructed with row_factory=True, export_csv
over a non-empty selection writes the header line (the table's column
names) followed by the selected rows in selection order; over an empty
selection it raises AttributeError and writes no header; on a
row_factory=False store even a non-empty selection raises, because the
cursor created at construction returns plain tuples. -/
theorem export_csv_header_rows (st : SQLOpsState) (f : List PyVal → Bool)
    (tname : String) (t : Table) (ht : getTable st tname = some t) :
    (∀ r rs, st.rowFactory = true → t.rows.filter f = r :: rs →
        export_csv st f tname = Except.ok
          (get_column_names st tname ::
            (r :: rs).map (fun row => row.map csvCell))) ∧
    (t.rows.filter f = [] →
        export_csv st f tname = Except.error
          (PyErr.attributeError "NoneType object has no attribute keys")) ∧
    (∀ r rs, st.rowFactory = false → t.rows.filter f = r :: rs →
        export_csv st f tname = Except.error
          (PyErr.attributeError "tuple object has no attribute keys")) := by
  refine ⟨?_, ?_, ?_⟩
  · intro r rs hrf hsel
    simp [export_csv, select_rows, ht, hsel, hrf]
  · intro hsel
    simp [export_csv, select_rows, ht, hsel]
  · intro r rs hrf hsel
    simp [export_csv, select_rows, ht, hsel, hrf]

/-- Witness for C4 amended at a concrete store: the populated ordinal table
exports its header and its two rows; the empty selection raises. -/
theorem export_csv_header_rows_witness :
    export_csv exStRows (fun _ => true) "t" =
      Except.ok [["ordinal", "name"], ["2", "a"], ["5", "b"]] ∧
    export_csv exStT (fun _ => true) "t" =
      Except.error
        (PyErr.attributeError "NoneType object has no attribute keys") := by
  constructor
  · have h := (export_csv_header_rows exStRows (fun _ => true) "t"
      ⟨"t", [⟨"ordinal", "integer", true⟩, ⟨"name", "text", false⟩],
        [[PyVal.vInt 2, PyVal.vStr "a"], [PyVal.vInt 5, PyVal.vStr "b"]]⟩
      (by decide)).1
      [PyVal.vInt 2, PyVal.vStr "a"] [[PyVal.vInt 5, PyVal.vStr "b"]]
      (by decide) (by decide)
    exact h.trans (by decide)
  · exact (export_csv_header_rows exStT (fun _ => true) "t"
      ⟨"t", [⟨"ordinal", "integer", true⟩, ⟨"name", "text", false⟩], []⟩
      (by decide)).2.1 (by decide)

/-- C3 amended: only the mapping path of add_row is best-effort.  Whenever
a mapping-shaped insert reaches the guarded execute and the engine rejects
it, add_row returns normally (err = none) with the failure recorded as a
printed diagnostic, on both the ordinal and the plain branch; positional
and batch failures are not guarded (see the counterexample). -/
theorem add_row_best_effort_mapping_only (st : SQLOpsState) (tname : String) :
    (∀ m m1 m3 st1 e, column_exists st "ordinal" tname = true →
        addRowDictStep1 st m tname = Except.ok m1 →
        addExtraColumns st m1 tname = Except.ok st1 →
        sql_gen_dict (get_column_names st1 tname)
            (fillMissing (get_column_names st1 tname) m1) = Except.ok m3 →
        dict_execute st1 tname m3 = Except.error e →
        add_row st (RowData.rDict m) tname =
          ⟨st1, RowData.rDict m3, none, [e]⟩) ∧
    (∀ m m1 st1 e, column_exists st "ordinal" tname = false →
        addExtraColumns st m tname = Except.ok st1 →
        sql_gen_dict (get_column_names st1 tname) m = Except.ok m1 →
        dict_execute st1 tname m1 = Except.error e →
        add_row st (RowData.rDict m) tname =
          ⟨st1, RowData.rDict m1, none, [e]⟩) := by
  constructor
  · intro m m1 m3 st1 e hord h1 h2 h3 hfail
    simp [add_row, hord, addRowDictOrdinal, h1, h2, h3, hfail]
  · intro m m1 st1 e hord h2 h3 hfail
    simp [add_row, hord, addRowDictPlain, h2, h3, hfail]

/-- Witness for C3 amended: a mapping whose ordinal value is the string x
fails at the engine with a datatype mismatch on the rowid column; add_row
swallows it, reports it, and leaves the store unchanged. -/
theorem add_row_best_effort_mapping_only_witness :
    add_row exStT
        (RowData.rDict [("ordinal", PyVal.vStr "x"), ("name", PyVal.vStr "a")])
        "t" =
      ⟨exStT,
       RowData.rDict [("ordinal", PyVal.vStr "x"), ("name", PyVal.vStr "a")],
       none, [PyErr.engineError "datatype mismatch"]⟩ :=
  (add_row_best_effort_mapping_only exStT "t").1
    [("ordinal", PyVal.vStr "x"), ("name", PyVal.vStr "a")]
    [("ordinal", PyVal.vStr "x"), ("name", PyVal.vStr "a")]
    [("ordinal", PyVal.vStr "x"), ("name", PyVal.vStr "a")]
    exStT (PyErr.engineError "datatype mismatch")
    (by decide) (by decide) (by decide) (by decide) (by decide)

/-- C6 amended: on an ordinal-enabled table, a mapping that omits declared
columns gets every omitted column filled into the dict as the empty string
before the insert, and the row handed to the engine carries the empty
string at each omitted column — so the omission is persisted as empty
text.  (On a table without an ordinal column the fill never runs and no
row is persisted; see the counterexample.) -/
theorem add_row_missing_columns_empty_text_ordinal
    (st st1 st2 : SQLOpsState) (tname : String)
    (m m1 : List (String × PyVal)) (t1 : Table)
    (hord : column_exists st "ordinal" tname = true)
    (h1 : addRowDictStep1 st m tname = Except.ok m1)
    (h2 : addExtraColumns st m1 tname = Except.ok st1)
    (hnd : ∀ k ∈ get_column_names st1 tname, hasDot k = false)
    (hrep : ∀ k ∈ get_column_names st1 tname, replaceDot k = k)
    (ht1 : getTable st1 tname = some t1)
    (hexec : dict_execute st1 tname
        (fillMissing (get_column_names st1 tname) m1) = Except.ok st2) :
    add_row st (RowData.rDict m) tname =
      ⟨st2, RowData.rDict (fillMissing (get_column_names st1 tname) m1),
       none, []⟩ ∧
    (∀ c ∈ get_column_names st1 tname, dictGet m1 c = none →
        dictGet (fillMissing (get_column_names st1 tname) m1) c =
          some (PyVal.vStr "")) ∧
    (∀ (j : Nat) (c : Column), t1.cols[j]? = some c →
        dictGet m1 c.name = none →
        (dictRow t1 (fillMissing (get_column_names st1 tname) m1))[j]? =
          some (PyVal.vStr "")) := by
  have hgd := sql_gen_dict_no_dots (get_column_names st1 tname)
    (fillMissing (get_column_names st1 tname) m1) hnd
  refine ⟨?_, ?_, ?_⟩
  · simp [add_row, hord, addRowDictOrdinal, h1, h2, hgd, hexec]
  · intro c hc hnone
    exact fillMissing_of_missing _ m1 c hc hnone
  · intro j c hj hnone
    have hcmem : c ∈ t1.cols := by
      have := List.getElem?_eq_some_iff.mp hj
      obtain ⟨hlt, hget⟩ := this
      exact hget ▸ List.getElem_mem hlt
    have hcn : c.name ∈ get_column_names st1 tname := by
      simp only [get_column_names, ht1]
      exact List.mem_map.mpr ⟨c, hcmem, rfl⟩
    have hfill := fillMissing_of_missing _ m1 c.name hcn hnone
    simp only [dictRow, List.getElem?_map, hj, Option.map_some',
      hrep c.name hcn, hfill]
    rfl

/-- Witness for C6 amended: inserting a mapping holding only the ordinal
into t(ordinal, name) stores the row with name as the empty string and
writes the empty string into the caller's dict. -/
theorem add_row_missing_columns_empty_text_ordinal_witness :
    add_row exStT (RowData.rDict [("ordinal", PyVal.vInt 1)]) "t" =
      ⟨SQLOpsState.mk
        [⟨"t", [⟨"ordinal", "integer", true⟩, ⟨"name", "text", false⟩],
          [[PyVal.vInt 1, PyVal.vStr ""]]⟩] [("t", 1)] true,
       RowData.rDict [("ordinal", PyVal.vInt 1), ("name", PyVal.vStr "")],
       none, []⟩ := by
  have h := (add_row_missing_columns_empty_text_ordinal exStT exStT
    (SQLOpsState.mk
      [⟨"t", [⟨"ordinal", "integer", true⟩, ⟨"name", "text", false⟩],
        [[PyVal.vInt 1, PyVal.vStr ""]]⟩] [("t", 1)] true)
    "t" [("ordinal", PyVal.vInt 1)] [("ordinal", PyVal.vInt 1)]
    ⟨"t", [⟨"ordinal", "integer", true⟩, ⟨"name", "text", false⟩], []⟩
    (by decide) (by decide) (by decide) (by decide) (by decide) (by decide)
    (by decide)).1
  exact h.trans (by decide)

/-- C10: add_row mutates the caller's row_data.  For a mapping on an
ordinal-enabled table without an "ordinal" key, the assigned ordinal and an
empty-string entry for every missing declared column are written into the
caller's dict (whatever the later execute does), so the dict the caller
holds afterwards differs from the one passed in; for a positional list
shorter than the column count, the generated ordinal is inserted at
position 0 of the caller's list. -/
theorem add_row_mutates_caller_row_data (st : SQLOpsState) (tname : String) :
    (∀ m n st1, column_exists st "ordinal" tname = true →
        dictGet m "ordinal" = none →
        get_next_ordinal st tname = Except.ok n →
        addExtraColumns st (dictSet m "ordinal" (PyVal.vInt n)) tname =
          Except.ok st1 →
        (∀ k ∈ get_column_names st1 tname, hasDot k = false) →
        (add_row st (RowData.rDict m) tname).row_data =
            RowData.rDict (fillMissing (get_column_names st1 tname)
              (dictSet m "ordinal" (PyVal.vInt n))) ∧
        dictGet (fillMissing (get_column_names st1 tname)
              (dictSet m "ordinal" (PyVal.vInt n))) "ordinal" =
            some (PyVal.vInt n) ∧
        (∀ c ∈ get_column_names st1 tname,
            dictGet (dictSet m "ordinal" (PyVal.vInt n)) c = none →
            dictGet (fillMissing (get_column_names st1 tname)
              (dictSet m "ordinal" (PyVal.vInt n))) c =
              some (PyVal.vStr "")) ∧
        fillMissing (get_column_names st1 tname)
            (dictSet m "ordinal" (PyVal.vInt n)) ≠ m) ∧
    (∀ vs n, column_exists st "ordinal" tname = true →
        vs ≠ [] →
        vs.length < (get_column_names st tname).length →
        get_next_ordinal st tname = Except.ok n →
        (add_row st (RowData.rList vs) tname).row_data =
          RowData.rList (PyVal.vInt n :: vs)) := by
  constructor
  · intro m n st1 hord hno hn h2 hnd
    have h1 : addRowDictStep1 st m tname =
        Except.ok (dictSet m "ordinal" (PyVal.vInt n)) := by
      simp [addRowDictStep1, hno, hn]
    have hgd := sql_gen_dict_no_dots (get_column_names st1 tname)
      (fillMissing (get_column_names st1 tname)
        (dictSet m "ordinal" (PyVal.vInt n))) hnd
    have hself : dictGet (dictSet m "ordinal" (PyVal.vInt n)) "ordinal" =
        some (PyVal.vInt n) := assocGet_assocSet_self m "ordinal" _
    refine ⟨?_, ?_, ?_, ?_⟩
    · cases hde : dict_execute st1 tname
          (fillMissing (get_column_names st1 tname)
            (dictSet m "ordinal" (PyVal.vInt n))) with
      | error e =>
          simp [add_row, hord, addRowDictOrdinal, h1, h2, hgd, hde]
      | ok st2 =>
          simp [add_row, hord, addRowDictOrdinal, h1, h2, hgd, hde]
    · exact fillMissing_preserves _ _ _ _ hself
    · intro c hc hnone
      exact fillMissing_of_missing _ _ c hc hnone
    · intro heq
      have := fillMissing_preserves (get_column_names st1 tname)
        (dictSet m "ordinal" (PyVal.vInt n)) "ordinal" _ hself
      rw [heq] at this
      rw [hno] at this
      cases this
  · intro vs n hord hne hlen hn
    cases vs with
    | nil => cases hne rfl
    | cons v vs =>
        have hlne : ¬ (vs.length + 1 = (get_column_names st tname).length) := by
          simpa using Nat.ne_of_lt hlen
        cases hgl : sql_gen_list_exec st tname (PyVal.vInt n :: v :: vs) with
        | error e =>
            simp [add_row, hord, addRowListOrdinal, hlne, hn, hgl]
        | ok st2 =>
            simp [add_row, hord, addRowListOrdinal, hlne, hn, hgl]

/-- Witness for C10: the dict the caller passed gains the ordinal and the
empty name entry; the short positional list gains the ordinal at its
head. -/
theorem add_row_mutates_caller_row_data_witness :
    (add_row exStT (RowData.rDict [("name", PyVal.vStr "a")]) "t").row_data =
      RowData.rDict [("name", PyVal.vStr "a"), ("ordinal", PyVal.vInt 1)] ∧
    (add_row exStT (RowData.rList [PyVal.vStr "a"]) "t").row_data =
      RowData.rList [PyVal.vInt 1, PyVal.vStr "a"] := by
  constructor
  · have h := ((add_row_mutates_caller_row_data exStT "t").1
      [("name", PyVal.vStr "a")] 1 exStT
      (by decide) (by decide) (by decide) (by decide) (by decide)).1
    exact h.trans (by decide)
  · exact (add_row_mutates_caller_row_data exStT "t").2
      [PyVal.vStr "a"] 1 (by decide) (by decide) (by decide) (by decide)

theorem add_column_ok {st : SQLOpsState} {tname : String} {t : Table}
    {cname ctype : String}
    (ht : getTable st tname = some t)
    (hty : check_types_str ctype = true)
    (hnc : column_exists st cname tname = false) :
    add_column st cname ctype false tname =
      Except.ok (setTable st
        { t with cols := t.cols ++ [⟨cname, ctype, false⟩],
                 rows := t.rows.map (fun r => r ++ [PyVal.vNone]) }) := by
  simp [add_column, hty, hnc, ht]

theorem contains_append_singleton_ne {names : List String} {q pn : String}
    (h : q ≠ pn) : (names ++ [pn]).contains q = names.contains q := by
  by_cases hq : q ∈ names
  · have h1 : names.contains q = true := List.elem_iff.mpr hq
    have h2 : (names ++ [pn]).contains q = true :=
      List.elem_iff.mpr (List.mem_append_left _ hq)
    rw [h1, h2]
  · have h1 : names.contains q = false := by
      cases hc : names.contains q with
      | false => rfl
      | true => exact absurd (List.elem_iff.mp hc) hq
    have h2 : (names ++ [pn]).contains q = false := by
      cases hc : (names ++ [pn]).contains q with
      | false => rfl
      | true =>
          rcases List.mem_append.mp (List.elem_iff.mp hc) with hm | hm
          · exact absurd hm hq
          · simp at hm
            exact absurd hm h
    rw [h1, h2]

theorem addMissing_cons (st : SQLOpsState) (tname key_name : String)
    (p : String × String) (rest : List (String × String)) :
    addMissing st tname (p :: rest) key_name =
      ((if ¬ column_exists st p.1 tname then
          add_column st p.1 p.2 (p.1 == key_name) tname
        else Except.ok st) >>=
        fun s => addMissing s tname rest key_name) := by
  simp [addMissing, List.foldlM_cons]

/-- What the additive-migration loop of create_table does on success: it
appends exactly the listed columns that were missing, in list order, as
non-key columns, and pads every existing row with NULL in the new columns,
touching nothing else about the rows. -/
theorem addMissing_spec (tname key_name : String) :
    ∀ (pairs : List (String × String)) (st : SQLOpsState) (t : Table),
      getTable st tname = some t →
      (pairs.map Prod.fst).Nodup →
      (∀ p ∈ pairs, column_exists st p.1 tname = false →
          check_types_str p.2 = true ∧ (p.1 == key_name) = false) →
      ∃ st2, addMissing st tname pairs key_name = Except.ok st2 ∧
        getTable st2 tname = some
          { t with
              cols := t.cols ++ ((pairs.filter
                (fun p => ¬ column_exists st p.1 tname)).map
                  (fun p => ⟨p.1, p.2, false⟩)),
              rows := t.rows.map (fun r => r ++ List.replicate
                ((pairs.filter
                  (fun p => ¬ column_exists st p.1 tname)).length)
                PyVal.vNone) } := by
  intro pairs
  induction pairs with
  | nil =>
      intro st t ht _ _
      refine ⟨st, rfl, ?_⟩
      simpa using ht
  | cons p rest ih =>
      intro st t ht hnodup hty
      rw [List.map_cons] at hnodup
      have hnodup2 : (rest.map Prod.fst).Nodup := (List.nodup_cons.mp hnodup).2
      have hpnotin : p.1 ∉ rest.map Prod.fst := (List.nodup_cons.mp hnodup).1
      by_cases hce : column_exists st p.1 tname = true
      · obtain ⟨st2, h2, ht2⟩ := ih st t ht hnodup2
          (fun q hq => hty q (List.mem_cons_of_mem _ hq))
        refine ⟨st2, ?_, ?_⟩
        · rw [addMissing_cons]
          simp only [hce, not_true_eq_false, if_false]
          exact h2
        · have hfil : (p :: rest).filter
              (fun q => ¬ column_exists st q.1 tname) =
              rest.filter (fun q => ¬ column_exists st q.1 tname) := by
            simp [List.filter_cons, hce]
          rw [hfil]
          exact ht2
      · have hcef : column_exists st p.1 tname = false := by
          simpa using hce
        obtain ⟨hty1, hkey⟩ := hty p (List.mem_cons_self p rest) hcef
        have hname : t.name = tname := name_of_getTable ht
        have hac := add_column_ok ht hty1 hcef
        have ht' : getTable (setTable st
            { t with cols := t.cols ++ [⟨p.1, p.2, false⟩],
                     rows := t.rows.map (fun r => r ++ [PyVal.vNone]) })
            tname = some
            { t with cols := t.cols ++ [⟨p.1, p.2, false⟩],
                     rows := t.rows.map (fun r => r ++ [PyVal.vNone]) } :=
          getTable_setTable ht hname
        have hcongr : ∀ q ∈ rest,
            column_exists (setTable st
              { t with cols := t.cols ++ [⟨p.1, p.2, false⟩],
                       rows := t.rows.map (fun r => r ++ [PyVal.vNone]) })
              q.1 tname = column_exists st q.1 tname := by
          intro q hq
          have hqne : q.1 ≠ p.1 := by
            intro hcontra
            exact hpnotin (hcontra ▸ List.mem_map.mpr ⟨q, hq, rfl⟩)
          simp only [column_exists, get_column_names, ht', ht,
            List.map_append, List.map_cons, List.map_nil]
          exact contains_append_singleton_ne hqne
        have hty2 : ∀ q ∈ rest,
            column_exists (setTable st
              { t with cols := t.cols ++ [⟨p.1, p.2, false⟩],
                       rows := t.rows.map (fun r => r ++ [PyVal.vNone]) })
              q.1 tname = false →
            check_types_str q.2 = true ∧ (q.1 == key_name) = false := by
          intro q hq hnc
          exact hty q (List.mem_cons_of_mem _ hq) ((hcongr q hq) ▸ hnc)
        obtain ⟨st2, h2, ht2⟩ := ih (setTable st
            { t with cols := t.cols ++ [⟨p.1, p.2, false⟩],
                     rows := t.rows.map (fun r => r ++ [PyVal.vNone]) })
          { t with cols := t.cols ++ [⟨p.1, p.2, false⟩],
                   rows := t.rows.map (fun r => r ++ [PyVal.vNone]) }
          ht' hnodup2 hty2
        refine ⟨st2, ?_, ?_⟩
        · rw [addMissing_cons]
          simp only [hcef, Bool.false_eq_true, not_false_eq_true, if_true,
            hkey, hac]
          exact h2
        · have hfilrest : (List.filter (fun q => ¬ column_exists
              (setTable st { t with
                  cols := t.cols ++ [⟨p.1, p.2, false⟩],
                  rows := t.rows.map (fun r => r ++ [PyVal.vNone]) })
                q.1 tname) rest) =
              rest.filter (fun q => ¬ column_exists st q.1 tname) := by
            apply List.filter_congr
            intro q hq
            simp [hcongr q hq]
          have hfil : (p :: rest).filter
              (fun q => ¬ column_exists st q.1 tname) =
              p :: rest.filter (fun q => ¬ column_exists st q.1 tname) := by
            simp [List.filter_cons, hcef]
          rw [hfil]
          rw [hfilrest] at ht2
          have hcols : (t.cols ++ [(⟨p.1, p.2, false⟩ : Column)]) ++
              (rest.filter (fun q => ¬ column_exists st q.1 tname)).map
                (fun q => (⟨q.1, q.2, false⟩ : Column)) =
              t.cols ++ ((p :: rest.filter
                (fun q => ¬ column_exists st q.1 tname)).map
                  (fun q => (⟨q.1, q.2, false⟩ : Column))) := by
            rw [List.append_assoc]
            rfl
          have hrows : (t.rows.map (fun r => r ++ [PyVal.vNone])).map
              (fun r => r ++ List.replicate
                ((rest.filter (fun q => ¬ column_exists st q.1 tname)).length)
                PyVal.vNone) =
              t.rows.map (fun r => r ++ List.replicate
                ((p :: rest.filter
                  (fun q => ¬ column_exists st q.1 tname)).length)
                PyVal.vNone) := by
            rw [List.map_map]
            apply List.map_congr_left
            intro r _
            simp only [Function.comp_apply, List.length_cons,
              List.replicate_succ, List.append_assoc, List.singleton_append]
          rw [hcols, hrows] at ht2
          exact ht2

/-- C1 amended: create_table on an existing table with drop=False raises
the table-already-present error (see the counterexample); the additive
migration instead runs when drop=True and no table named "table" exists,
so the buggy drop_table leaves the target in place: then the call succeeds
and adds exactly those listed columns not already present — in list order,
with their listed types — and existing rows are untouched apart from the
NULL padding of the new columns. -/
theorem create_table_existing_additive (st : SQLOpsState) (tname : String)
    (cl tl : List String) (key_name : String) (ordinal : Bool) (t : Table)
    (ht : getTable st tname = some t)
    (hnt : table_exists st "table" = false)
    (hnodup : ((cl.zip tl).map Prod.fst).Nodup)
    (hty : ∀ p ∈ cl.zip tl, column_exists st p.1 tname = false →
        check_types_str p.2 = true ∧ (p.1 == key_name) = false) :
    ∃ st2, create_table st tname cl tl true key_name ordinal =
        Except.ok st2 ∧
      get_column_names st2 tname = get_column_names st tname ++
        (missingPairs st tname (cl.zip tl)).map Prod.fst ∧
      get_column_types st2 tname = get_column_types st tname ++
        (missingPairs st tname (cl.zip tl)).map Prod.snd ∧
      ∃ t2, getTable st2 tname = some t2 ∧
        t2.rows = t.rows.map (fun r => r ++ List.replicate
          (missingPairs st tname (cl.zip tl)).length PyVal.vNone) := by
  have hex : table_exists st tname = true := table_exists_of_getTable ht
  have hdrop : drop_table st tname = st := by
    simp [drop_table, hnt]
  obtain ⟨st2, h2, ht2⟩ := addMissing_spec tname key_name (cl.zip tl) st t
    ht hnodup hty
  refine ⟨st2, ?_, ?_, ?_, ?_⟩
  · simp only [create_table, Bool.not_true, Bool.false_eq_true, false_and,
      if_false, if_true, hdrop, hex]
    exact h2
  · simp only [get_column_names, ht2, ht, missingPairs, List.map_append,
      List.map_map]
    rfl
  · simp only [get_column_types, ht2, ht, missingPairs, List.map_append,
      List.map_map]
    rfl
  · exact ⟨_, ht2, rfl⟩

/-- Witness for C1 amended: re-invoking create_table with drop=True on the
existing t(ordinal, name) — in a store with no table named "table" — adds
exactly the missing column extra after the existing ones. -/
theorem create_table_existing_additive_witness :
    get_column_names ((create_table exStT "t" ["name", "extra"]
        ["text", "text"] true "" false).toOption.getD exStEmpty) "t" =
      ["ordinal", "name", "extra"] := by
  obtain ⟨st2, hok, hnames, htypes, ht2⟩ :=
    create_table_existing_additive exStT "t" ["name", "extra"]
      ["text", "text"] "" false
      ⟨"t", [⟨"ordinal", "integer", true⟩, ⟨"name", "text", false⟩], []⟩
      (by decide) (by decide) (by decide) (by decide)
  rw [hok]
  show get_column_names st2 "t" = ["ordinal", "name", "extra"]
  rw [hnames]
  decide
